import Mathlib

set_option maxRecDepth 8192

/-!
Verification development for the contextual-RAG pipeline
(`loader.py`, `generator.py`, `retriever.py`, `app.py`, `config.py`).

The Python source is shallowly embedded: pure functions become Lean
functions, external services (PDF extraction, the chat model, the
structured-output model, the embedding/vector-store backend) become
explicit oracle parameters, and Python exceptions become `Except`.
-/

/-! ## String utilities

Python string primitives used by the source, re-implemented over
`List Char` so that everything reduces in the kernel. -/

/-- Characters stripped by Python `str.strip()` (whitespace). -/
def isPySpace (c : Char) : Bool :=
  c = ' ' || c = '\t' || c = '\n' || c = '\r' || c = '\x0b' || c = '\x0c'

/-- Python `str.strip()`: drop whitespace from both ends. -/
def pyStrip (s : String) : String :=
  String.mk (((s.data.dropWhile isPySpace).reverse.dropWhile isPySpace).reverse)

/-- Sum of the lengths of a list of strings. -/
def sumLen : List String → Nat
  | [] => 0
  | s :: rest => s.length + sumLen rest

/-- Python `sep.join(parts)`. -/
def joinSep (sep : String) : List String → String
  | [] => ""
  | [s] => s
  | s :: rest => s ++ sep ++ joinSep sep rest

/-- Whether `pat` is a prefix of `l`: `isPrefixList pat l` is true when `pat` is a prefix of `l`. -/
def isPrefixList : List Char → List Char → Bool
  | [], _ => true
  | _ :: _, [] => false
  | a :: as, b :: bs => a == b && isPrefixList as bs

/-- Worker for `pySplitOn`: split on the leftmost non-overlapping
occurrences of the (non-empty) separator `sep`; `acc` is the current
piece, reversed.  Structural fuel recursion (every call shortens the
list, so fuel `length + 1` makes the fuel-exhaustion branch
unreachable) keeps the function kernel-reducible. -/
def splitOnAuxL (sep : List Char) : Nat → List Char → List Char → List (List Char)
  | 0, l, acc => [acc.reverse ++ l]
  | _ + 1, [], acc => [acc.reverse]
  | fuel + 1, c :: rest, acc =>
    if isPrefixList sep (c :: rest) then
      acc.reverse :: splitOnAuxL sep fuel (List.drop (sep.length - 1) rest) []
    else
      splitOnAuxL sep fuel rest (c :: acc)

/-- Python `s.split(sep)` for a literal separator (also the behaviour of
`re.split` on an escaped pattern): split on leftmost non-overlapping
occurrences.  An empty separator returns `[s]` (the source never splits
on an empty separator through this path). -/
def pySplitOn (s sep : String) : List String :=
  if sep.data.isEmpty then [s]
  else (splitOnAuxL sep.data (s.data.length + 1) s.data []).map (fun l => String.mk l)

/-- Python `Path(p).name`: the final path component. -/
def fileName (path : String) : String :=
  ((pySplitOn path "/").filter (fun s => s != "")).getLastD ""

/-- Length of the longest suffix of `a` that is also a prefix of `b`:
the spec's notion of two consecutive windows "overlapping by N
characters". -/
def overlapLen (a b : String) : Nat :=
  ((List.range (min a.length b.length + 1)).reverse.find?
    (fun t => decide (a.data.drop (a.length - t) = b.data.take t))).getD 0

/-! ## The text splitter

`create_contextual_chunks` builds
`RecursiveCharacterTextSplitter(chunk_size=…, chunk_overlap=…)` and calls
`split_documents`.  The splitter below is a faithful embedding of that
langchain class with its defaults: separators `["\n\n", "\n", " ", ""]`,
`keep_separator=True`, `length_function=len`, `strip_whitespace=True`. -/

/-- Truthiness of `re.search(re.escape(sep), text)` for a non-empty literal
separator: does `sep` occur in `text`? -/
def strOccurs (sep text : String) : Bool :=
  (pySplitOn text sep).length != 1

/-- The separator-selection loop at the top of
`RecursiveCharacterTextSplitter._split_text`: pick the first separator
that is `""` or occurs in the text; the remaining separators become the
fallback list.  If none matches, the last separator is used with no
fallbacks. -/
def chooseSep : List String → String → String × List String
  | [], _ => ("", [])
  | s :: rest, text =>
    if s = "" then ("", [])
    else if strOccurs s text then (s, rest)
    else if rest.isEmpty then (s, [])
    else chooseSep rest text

/-- Embeds `_split_text_with_regex(text, sep, keep_separator=True)`: split and
re-attach each separator occurrence to the piece that follows it, then
drop empty pieces.  An empty separator yields the list of characters. -/
def splitKeep (sep text : String) : List String :=
  let splits :=
    if sep = "" then text.data.map (fun c => String.mk [c])
    else
      match pySplitOn text sep with
      | [] => []
      | p :: ps => p :: ps.map (fun q => sep ++ q)
  splits.filter (fun s => s != "")

/-- Embeds `TextSplitter._join_docs`: join the pieces, strip whitespace, and
drop the result when it is empty. -/
def joinDocs (docs : List String) (sep : String) : Option String :=
  if pyStrip (joinSep sep docs) = "" then none
  else some (pyStrip (joinSep sep docs))

/-- The `while` loop inside `TextSplitter._merge_splits` that pops
pieces from the front of the running window until the retained total is
within `chunk_overlap` and appending the next piece fits `chunk_size`. -/
def popLoop (cs co dlen sepLen : Nat) : List String → Nat → List String × Nat
  | [], total => ([], total)
  | c :: rest, total =>
    if total > co ∨ (total + dlen + (if rest.isEmpty then 0 else sepLen) > cs ∧ total > 0) then
      popLoop cs co dlen sepLen rest (total - (c.length + (if rest.isEmpty then 0 else sepLen)))
    else
      (c :: rest, total)

/-- One iteration of the `for d in splits` loop of
`TextSplitter._merge_splits`; the state is
`(docs, current_doc, total)`. -/
def mergeStep (cs co : Nat) (sep : String) (st : List String × List String × Nat)
    (d : String) : List String × List String × Nat :=
  if st.2.2 + d.length + (if st.2.1.isEmpty then 0 else sep.length) > cs then
    if st.2.1.isEmpty then
      (st.1, [d], d.length)
    else
      ((match joinDocs st.2.1 sep with
        | some doc => st.1 ++ [doc]
        | none => st.1),
       (popLoop cs co d.length sep.length st.2.1 st.2.2).1 ++ [d],
       (popLoop cs co d.length sep.length st.2.1 st.2.2).2 + d.length +
         (if (popLoop cs co d.length sep.length st.2.1 st.2.2).1.isEmpty then 0
          else sep.length))
  else
    (st.1, st.2.1 ++ [d],
     st.2.2 + d.length + (if st.2.1.isEmpty then 0 else sep.length))

/-- Embeds `TextSplitter._merge_splits`. -/
def mergeSplits (cs co : Nat) (sep : String) (splits : List String) : List String :=
  match joinDocs (splits.foldl (mergeStep cs co sep) ([], [], 0)).2.1 sep with
  | some doc => (splits.foldl (mergeStep cs co sep) ([], [], 0)).1 ++ [doc]
  | none => (splits.foldl (mergeStep cs co sep) ([], [], 0)).1

/-- One iteration of the `for s in splits` loop of
`RecursiveCharacterTextSplitter._split_text`: good splits (shorter than
`chunk_size`) accumulate; a long split first flushes the accumulated
good splits through `_merge_splits` and is then expanded by `expand`
(recursion on the remaining separators, or emitted as-is when no
separator remains). -/
def gatherStep (cs co : Nat) (expand : String → List String)
    (st : List String × List String) (s : String) : List String × List String :=
  if s.length < cs then
    (st.1, st.2 ++ [s])
  else
    ((if st.2.isEmpty then st.1 else st.1 ++ mergeSplits cs co "" st.2) ++ expand s, [])

/-- Flush the good splits left over after the loop. -/
def finishGather (cs co : Nat) (st : List String × List String) : List String :=
  if st.2.isEmpty then st.1 else st.1 ++ mergeSplits cs co "" st.2

/-- Embeds `RecursiveCharacterTextSplitter._split_text`, with explicit fuel.
Each recursive call strictly shrinks the separator list, so fuel equal
to the number of separators makes the fuel-exhaustion branch
unreachable. -/
def splitTextAux (cs co : Nat) : Nat → List String → String → List String
  | 0, _, _ => []
  | fuel + 1, seps, text =>
    finishGather cs co
      ((splitKeep (chooseSep seps text).1 text).foldl
        (gatherStep cs co
          (fun s =>
            if (chooseSep seps text).2.isEmpty then [s]
            else splitTextAux cs co fuel (chooseSep seps text).2 s))
        ([], []))

/-- Embeds `RecursiveCharacterTextSplitter.split_text` with the default
separator list. -/
def splitText (cs co : Nat) (text : String) : List String :=
  splitTextAux cs co 4 ["\n\n", "\n", " ", ""] text

/-! ## Data model

`langchain` `Document`s carry a text payload and a string-keyed metadata
dict.  The source only ever stores strings (`id`, `source`, `title`) and
integers (`page`) in metadata, so metadata values are embedded as a sum
of those two cases and a metadata dict as an association list. -/

/-- A metadata value: the source stores strings and page numbers. -/
inductive MetaVal where
  | str (s : String)
  | nat (n : Nat)
deriving DecidableEq, Repr

/-- A metadata dict. -/
abbrev Metadata := List (String × MetaVal)

/-- A langchain `Document`: page content plus metadata. -/
structure Document where
  page_content : String
  metadata : Metadata
deriving DecidableEq, Repr

/-- Python `meta.get(key, default)`. -/
def metaGetD (m : Metadata) (key : String) (dflt : MetaVal) : MetaVal :=
  match m.lookup key with
  | some v => v
  | none => dflt

/-- How a metadata value renders inside an f-string. -/
def MetaVal.render : MetaVal → String
  | .str s => s
  | .nat n => toString n

/-- Python `f"{m.get(key)}"`: a missing key renders as `None`. -/
def metaShow (m : Metadata) (key : String) : String :=
  match m.lookup key with
  | some v => v.render
  | none => "None"

/-! ## loader.py -/

/-- From `config.py`: `CHUNK_SIZE`. -/
def CHUNK_SIZE : Nat := 3500

/-- From `config.py`: `CHUNK_OVERLAP`. -/
def CHUNK_OVERLAP : Nat := 0

/-- From `config.py`: `VECTOR_DB_DIR`. -/
def VECTOR_DB_DIR : String := "./my_context_db"

/-- From `config.py`: `RETRIEVER_K`. -/
def RETRIEVER_K : Int := 5

/-- The pieces of `chunk_process_prompt` in `generate_chunk_context`
around the `paper` placeholder. -/
def chunkPromptP1 : String :=
  "\n    You are an AI assistant specializing in research/document analysis.\n    Your task is to provide brief, relevant context for a chunk of text\n    based on the full document.\n\n    Here is the full document:\n    <paper>\n    "

/-- The piece of `chunk_process_prompt` between the `paper` and `chunk`
placeholders. -/
def chunkPromptP2 : String :=
  "\n    </paper>\n\n    Here is the chunk:\n    <chunk>\n    "

/-- The piece of `chunk_process_prompt` after the `chunk`
placeholder. -/
def chunkPromptP3 : String :=
  "\n    </chunk>\n\n    In 2–3 sentences, explain:\n    - Where this chunk fits conceptually in the document (e.g., intro, methods, results, summary)\n    - The main topic or idea of this chunk\n    - How it relates to the overall document\n\n    Keep it concise, helpful, and neutral in tone.\n\n    Context:\n    "

/-- Result of `ChatPromptTemplate.from_template(chunk_process_prompt)` applied to
`{"paper": paper, "chunk": chunk}`. -/
def chunkProcessPrompt (paper chunk : String) : String :=
  chunkPromptP1 ++ paper ++ chunkPromptP2 ++ chunk ++ chunkPromptP3

/-- Embeds `generate_chunk_context(document, chunk)`.  The chat model
(`prompt | llm | StrOutputParser()`) is the oracle `llm`, mapping the
formatted prompt to the generated text or to a raised exception
(`Except.error`); the result is `.strip()`ped. -/
def generate_chunk_context (llm : String → Except Unit String)
    (document chunk : String) : Except Unit String :=
  match llm (chunkProcessPrompt document chunk) with
  | .error e => .error e
  | .ok context => .ok (pyStrip context)

/-- Embeds `splitter.split_documents(doc_pages)`: split each page's text and
copy the page's metadata onto every window cut from it. -/
def split_documents (cs co : Nat) (pages : List Document) : List Document :=
  (pages.map (fun page =>
    (splitText cs co page.page_content).map
      (fun w => Document.mk w page.metadata))).flatten

/-- The value `original_doc_text` in `create_contextual_chunks`:
`"\n\n".join(page.page_content for page in doc_pages)`. -/
def full_doc_text (loadPdf : String → List Document) (file_path : String) : String :=
  joinSep "\n\n" ((loadPdf file_path).map (fun p => p.page_content))

/-- The value `doc_chunks` in `create_contextual_chunks`: the windows the splitter
emits for the loaded pages. -/
def doc_windows (loadPdf : String → List Document) (cs co : Nat)
    (file_path : String) : List Document :=
  split_documents cs co (loadPdf file_path)

/-- The enriched `Document` built for the window at position `i` of the
splitter output, given the stripped context string: content is
`context + "\n\n" + chunk_content`, metadata is the fresh four-key dict
of `create_contextual_chunks`. -/
def buildChunk (idSupply : Nat → String) (file_path : String) (i : Nat)
    (w : Document) (context : String) : Document :=
  { page_content := context ++ "\n\n" ++ w.page_content
    metadata :=
      [("id", .str (idSupply i)),
       ("page", metaGetD w.metadata "page" (.nat 0)),
       ("source", metaGetD w.metadata "source" (.str file_path)),
       ("title", .str (fileName (metaGetD w.metadata "source" (.str file_path)).render))] }

/-- The `for chunk in doc_chunks` loop of `create_contextual_chunks`,
threading the index used for fresh-id generation.  `uuid.uuid4()` is the
oracle `idSupply`, indexed by the position of the window in the loop.  A
raised exception from the context generator propagates (there is no
`try`/`except` in the source). -/
def chunksLoop (llm : String → Except Unit String) (original file_path : String)
    (idSupply : Nat → String) : Nat → List Document → Except Unit (List Document)
  | _, [] => .ok []
  | i, w :: rest =>
    match generate_chunk_context llm original w.page_content with
    | .error e => .error e
    | .ok context =>
      match chunksLoop llm original file_path idSupply (i + 1) rest with
      | .error e => .error e
      | .ok tail => .ok (buildChunk idSupply file_path i w context :: tail)

/-- Embeds `create_contextual_chunks(file_path, chunk_size, chunk_overlap)`.
`load_pdf` (PyMuPDF) is the oracle `loadPdf`, and `uuid.uuid4()` the
oracle `idSupply`. -/
def create_contextual_chunks (llm : String → Except Unit String)
    (loadPdf : String → List Document) (idSupply : Nat → String)
    (file_path : String) (chunk_size chunk_overlap : Nat) :
    Except Unit (List Document) :=
  chunksLoop llm (full_doc_text loadPdf file_path) file_path idSupply 0
    (doc_windows loadPdf chunk_size chunk_overlap file_path)

/-! ## generator.py -/

/-- A chat-model message; `StrOutputParser()` projects out `content`. -/
structure AIMsg where
  content : String
deriving DecidableEq, Repr

/-- The `Citation` pydantic model. -/
structure Citation where
  id : String
  source : String
  title : String
  page : Int
  quotes : String
deriving DecidableEq, Repr

/-- The `QuotedCitations` pydantic model. -/
structure QuotedCitations where
  citations : List Citation
deriving DecidableEq, Repr

/-- The piece of `RAG_PROMPT` before the `question` placeholder. -/
def ragPromptP1 : String :=
  "You are an assistant who is an expert in question-answering tasks.\nAnswer the following question using only the retrieved context.\nIf the answer is not in the context, say that you don't know.\nKeep the answer detailed and well formatted.\n\nQuestion:\n"

/-- The piece of `RAG_PROMPT` between `question` and `context`. -/
def ragPromptP2 : String := "\n\nContext:\n"

/-- The piece of `RAG_PROMPT` after the `context` placeholder. -/
def ragPromptP3 : String := "\n\nAnswer:\n"

/-- Result of `rag_prompt_template` applied to a question and a context string. -/
def ragPrompt (question context : String) : String :=
  ragPromptP1 ++ question ++ ragPromptP2 ++ context ++ ragPromptP3

/-- The piece of `CITATIONS_PROMPT` before the `question`
placeholder. -/
def citePromptP1 : String :=
  "You are an assistant who is an expert in analyzing answers to questions\nand finding referenced citations from context articles.\n\nGiven the question, the context articles, and the generated answer,\nanalyze the answer and quote citations from the context articles\nthat justify the answer.\n\nQuestion:\n"

/-- The piece of `CITATIONS_PROMPT` between `question` and `context`. -/
def citePromptP2 : String := "\n\nContext Articles:\n"

/-- The piece of `CITATIONS_PROMPT` between `context` and `answer`. -/
def citePromptP3 : String := "\n\nAnswer:\n"

/-- Result of `cite_prompt_template` applied to question, context and answer. -/
def citePrompt (question context answer : String) : String :=
  citePromptP1 ++ question ++ citePromptP2 ++ context ++ citePromptP3 ++ answer ++ "\n"

/-- Embeds `format_docs(docs)`. -/
def format_docs (docs : List Document) : String :=
  joinSep "\n\n" (docs.map (fun d => d.page_content))

/-- The per-document f-string inside `format_docs_with_metadata`. -/
def formatDocEntry (doc : Document) : String :=
  "Context Article ID: " ++ metaShow doc.metadata "id" ++
  "\nContext Article Source: " ++ metaShow doc.metadata "source" ++
  "\nContext Article Title: " ++ metaShow doc.metadata "title" ++
  "\nContext Article Page: " ++ metaShow doc.metadata "page" ++
  "\n\nContent:\n" ++ doc.page_content ++ "\n"

/-- Embeds `format_docs_with_metadata(docs)`. -/
def format_docs_with_metadata (docs : List Document) : String :=
  joinSep "\n\n---\n\n" (docs.map formatDocEntry)

/-- Embeds `make_basic_rag_chain(retriever)` invoked on a question.  The
retriever and the chat model are oracles returning `Except` (network
calls can raise).  The chain builds the context by piping the retrieved
docs through `format_docs`, formats `RAG_PROMPT`, calls the model and
returns the parsed message content. -/
def make_basic_rag_chain (retriever : String → Except Unit (List Document))
    (llm : String → Except Unit AIMsg) (question : String) : Except Unit String :=
  match retriever question with
  | .error e => .error e
  | .ok docs =>
    match llm (ragPrompt question (format_docs docs)) with
    | .error e => .error e
    | .ok msg => .ok msg.content

/-- The output dict of `make_rag_with_citations_chain`. -/
structure CitedOut where
  context : List Document
  question : String
  answer : String
  citations : QuotedCitations
deriving DecidableEq, Repr

/-- Embeds `rag_response_chain` inside `make_rag_with_citations_chain`: format
the context with metadata, fill `RAG_PROMPT`, call the model, parse the
message content. -/
def rag_response_chain (llm : String → Except Unit AIMsg)
    (context : List Document) (question : String) : Except Unit String :=
  match llm (ragPrompt question (format_docs_with_metadata context)) with
  | .error e => .error e
  | .ok msg => .ok msg.content

/-- Embeds `cite_response_chain` inside `make_rag_with_citations_chain`: fill
`CITATIONS_PROMPT` and call the structured-output model
(`llm.with_structured_output(QuotedCitations)`), which returns a
validated `QuotedCitations` or raises (`Except.error`) on a schema
violation or service failure. -/
def cite_response_chain (sllm : String → Except Unit QuotedCitations)
    (context : List Document) (question answer : String) :
    Except Unit QuotedCitations :=
  sllm (citePrompt question (format_docs_with_metadata context) answer)

/-- Embeds `make_rag_with_citations_chain(retriever)` invoked on a question:
retrieve, `RunnablePassthrough.assign(answer=…)`,
`RunnablePassthrough.assign(citations=…)`.  Each `assign` keeps every
existing key and adds one; an error in any stage propagates. -/
def make_rag_with_citations_chain
    (retriever : String → Except Unit (List Document))
    (llm : String → Except Unit AIMsg)
    (sllm : String → Except Unit QuotedCitations)
    (question : String) : Except Unit CitedOut :=
  match retriever question with
  | .error e => .error e
  | .ok context =>
    match rag_response_chain llm context question with
    | .error e => .error e
    | .ok answer =>
      match cite_response_chain sllm context question answer with
      | .error e => .error e
      | .ok citations => .ok (CitedOut.mk context question answer citations)

/-! ## Vector store (loader.py `load_vectorstore`, app.py guard,
retriever.py) -/

/-- The on-disk state seen by the app: which directories exist (with how
many entries) and which persisted collections exist, keyed by
`(persist_directory, collection_name)`. -/
structure DiskState where
  dirs : List (String × Nat)
  collections : List ((String × String) × List Document)
deriving DecidableEq, Repr

/-- A `langchain_chroma.Chroma` handle. -/
structure Chroma where
  persist_directory : String
  collection_name : String
  docs : List Document
deriving DecidableEq, Repr

/-- Record that the backend wrote a file under `d`. -/
def touchDir (dirs : List (String × Nat)) (d : String) : List (String × Nat) :=
  (d, (dirs.lookup d).getD 0 + 1) :: dirs.filter (fun p => p.1 != d)

/-- The `Chroma(persist_directory=…, collection_name=…, …)` constructor.
The chromadb client it wraps uses get-or-create semantics: an existing
collection under the key is opened, and a missing one is silently
created empty (writing the store files under the persist directory).
It never raises a "collection not found" error. -/
def chromaInit (env : DiskState) (persist_directory collection_name : String) :
    Chroma × DiskState :=
  match env.collections.lookup (persist_directory, collection_name) with
  | some docs => (Chroma.mk persist_directory collection_name docs, env)
  | none =>
    (Chroma.mk persist_directory collection_name [],
     DiskState.mk (touchDir env.dirs persist_directory)
       (((persist_directory, collection_name), ([] : List Document)) :: env.collections))

/-- Embeds `load_vectorstore(persist_directory)`: construct a `Chroma` handle
on the fixed collection name `"my_context_db"`. -/
def load_vectorstore (env : DiskState) (persist_directory : String) :
    Chroma × DiskState :=
  chromaInit env persist_directory "my_context_db"

/-- The guard in `app.py`:
`Path(VECTOR_DB_DIR).exists() and any(Path(VECTOR_DB_DIR).iterdir())`. -/
def vectorstore_available (env : DiskState) (dir : String) : Bool :=
  match env.dirs.lookup dir with
  | some n => decide (0 < n)
  | none => false

/-- A `VectorStoreRetriever` as configured by
`vectorstore.as_retriever(search_type="similarity", search_kwargs={"k": k})`. -/
structure VectorStoreRetriever where
  vectorstore : Chroma
  search_type : String
  k : Int
deriving DecidableEq, Repr

/-- Embeds `get_similarity_retriever(vectorstore, k)`. -/
def get_similarity_retriever (vectorstore : Chroma) (k : Int) :
    VectorStoreRetriever :=
  VectorStoreRetriever.mk vectorstore "similarity" k

-- Equality of `Except` results is decidable when both components' equality is.
deriving instance DecidableEq for Except

/-! ## Invariants used in the splitter proofs -/

/-- Invariant of the `_merge_splits` loop state: emitted docs are within
`chunk_size`, the running `total` is the summed length of
`current_doc`, and it never exceeds `chunk_size`. -/
def MergeInv (cs : Nat) (st : List String × List String × Nat) : Prop :=
  (∀ c ∈ st.1, c.length ≤ cs) ∧ st.2.2 = sumLen st.2.1 ∧ st.2.2 ≤ cs

/-- Invariant of the `_split_text` loop state: emitted chunks are within
`chunk_size` and accumulated good splits are strictly shorter. -/
def GatherInv (cs : Nat) (st : List String × List String) : Prop :=
  (∀ c ∈ st.1, c.length ≤ cs) ∧ (∀ s ∈ st.2, s.length < cs)

/-! ## Concrete fixtures used by witnesses and counterexamples -/

/-- A retrieved context document carrying the metadata shape that
`create_contextual_chunks` produces. -/
def exDoc : Document :=
  Document.mk "content here"
    [("id", .str "doc-1"), ("source", .str "a.pdf"),
     ("title", .str "a.pdf"), ("page", .nat 1)]

/-- A retriever oracle returning one document. -/
def exRetriever : String → Except Unit (List Document) := fun _ => .ok [exDoc]

/-- A chat-model oracle returning a fixed answer. -/
def exAnswerLLM : String → Except Unit AIMsg := fun _ => .ok (AIMsg.mk "answer text")

/-- A citation whose `id` matches no retrieved document. -/
def exCitation : Citation := Citation.mk "bogus-id" "b.pdf" "b" 2 "some quote"

/-- A structured-output oracle returning the bogus citation. -/
def exCiteLLM : String → Except Unit QuotedCitations :=
  fun _ => .ok (QuotedCitations.mk [exCitation])

/-- A structured-output oracle that always raises (schema violation). -/
def exCiteFail : String → Except Unit QuotedCitations := fun _ => .error ()

/-- The output the citations chain produces from the fixtures above. -/
def exOut : CitedOut :=
  CitedOut.mk [exDoc] "q" "answer text" (QuotedCitations.mk [exCitation])

/-- A single extracted PDF page. -/
def exPage : Document :=
  Document.mk "hello" [("page", .nat 2), ("source", .str "docs/a.pdf")]

/-- A PDF-extraction oracle returning that page. -/
def exLoadPdf : String → List Document := fun _ => [exPage]

/-- A context-generation oracle returning a fixed context string. -/
def exCtxLLM : String → Except Unit String := fun _ => .ok " ctx "

/-- A context-generation oracle that always raises. -/
def exCtxFail : String → Except Unit String := fun _ => .error ()

/-- A fresh-id oracle. -/
def exIds : Nat → String := fun n => toString n

/-- A disk state whose persist directory exists and is non-empty but
holds no valid collection. -/
def exEnv : DiskState := DiskState.mk [("./my_context_db", 3)] []

/-- A vector-store handle. -/
def exStore : Chroma := Chroma.mk "./my_context_db" "my_context_db" []

/-! ## Helper lemmas -/

/-- If the context generator raises on any window, the
`create_contextual_chunks` loop propagates the exception and produces no
chunk list. -/
lemma chunksLoop_error (llm : String → Except Unit String)
    (original file_path : String) (idSupply : Nat → String) :
    ∀ (ws : List Document) (i : Nat),
      (∃ w ∈ ws, llm (chunkProcessPrompt original w.page_content) = .error ()) →
      chunksLoop llm original file_path idSupply i ws = .error () := by
  intro ws
  induction ws with
  | nil => intro i h; simp at h
  | cons w rest ih =>
    intro i h
    rcases h with ⟨w', hw', hfail⟩
    rcases List.mem_cons.mp hw' with heq | hmem
    · subst heq
      simp [chunksLoop, generate_chunk_context, hfail]
    · cases hg : llm (chunkProcessPrompt original w.page_content) with
      | error e => simp [chunksLoop, generate_chunk_context, hg]
      | ok ctx =>
        simp [chunksLoop, generate_chunk_context, hg,
          ih (i + 1) ⟨w', hmem, hfail⟩]

/-- If the context generator succeeds on every window, the
`create_contextual_chunks` loop emits exactly one enriched chunk per
window, in order, built by `buildChunk` at the window's position. -/
lemma chunksLoop_spec (llm : String → Except Unit String)
    (original file_path : String) (idSupply : Nat → String) :
    ∀ (ws : List Document) (i : Nat),
      (∀ w ∈ ws, (llm (chunkProcessPrompt original w.page_content)).isOk = true) →
      ∃ l, chunksLoop llm original file_path idSupply i ws = .ok l ∧
        l.length = ws.length ∧
        ∀ k w, ws.get? k = some w →
          ∃ ctx, llm (chunkProcessPrompt original w.page_content) = .ok ctx ∧
            l.get? k = some (buildChunk idSupply file_path (i + k) w (pyStrip ctx)) := by
  intro ws
  induction ws with
  | nil =>
    intro i _
    exact ⟨[], rfl, rfl, fun k w hk => by simp at hk⟩
  | cons w rest ih =>
    intro i h
    have hw := h w (List.mem_cons_self w rest)
    cases hctx : llm (chunkProcessPrompt original w.page_content) with
    | error e => rw [hctx] at hw; simp [Except.isOk, Except.toBool] at hw
    | ok ctx =>
      obtain ⟨tail, htail, hlen, hcorr⟩ :=
        ih (i + 1) (fun w' hw' => h w' (List.mem_cons_of_mem w hw'))
      refine ⟨buildChunk idSupply file_path i w (pyStrip ctx) :: tail, ?_, ?_, ?_⟩
      · simp [chunksLoop, generate_chunk_context, hctx, htail]
      · simp [hlen]
      · intro k w' hk
        cases k with
        | zero =>
          simp only [List.get?_cons_zero, Option.some.injEq] at hk
          subst hk
          exact ⟨ctx, hctx, by simp⟩
        | succ k' =>
          simp only [List.get?_cons_succ] at hk ⊢
          obtain ⟨ctx', h1, h2⟩ := hcorr k' w' hk
          refine ⟨ctx', h1, ?_⟩
          have harith : i + 1 + k' = i + (k' + 1) := by omega
          rw [harith] at h2
          exact h2

/-! ## Claims about the answer pipelines -/

/-- Claim C4: in the with-citations pipeline, the citation-extraction
stage leaves every other field of the pipeline state unchanged — for
every successful invocation, the `context`, `question` and `answer`
fields of the output are exactly the values produced before the
citation-extraction step ran; the extraction step only adds
`citations`. -/
theorem c4_citation_stage_frame
    (retriever : String → Except Unit (List Document))
    (llm : String → Except Unit AIMsg)
    (sllm : String → Except Unit QuotedCitations)
    (question : String) (out : CitedOut)
    (h : make_rag_with_citations_chain retriever llm sllm question = .ok out) :
    retriever question = .ok out.context ∧
    out.question = question ∧
    rag_response_chain llm out.context question = .ok out.answer := by
  unfold make_rag_with_citations_chain at h
  split at h
  · simp at h
  rename_i context hr
  split at h
  · simp at h
  rename_i answer ha
  split at h
  · simp at h
  rename_i citations hc
  injection h with h
  subst h
  exact ⟨hr, rfl, ha⟩

/-- Witness for C4 at concrete oracles. -/
theorem c4_witness :
    make_rag_with_citations_chain exRetriever exAnswerLLM exCiteLLM "q" = .ok exOut ∧
    (exRetriever "q" = .ok exOut.context ∧
      exOut.question = "q" ∧
      rag_response_chain exAnswerLLM exOut.context "q" = .ok exOut.answer) :=
  ⟨rfl, c4_citation_stage_frame exRetriever exAnswerLLM exCiteLLM "q" exOut rfl⟩

/-- Counterexample to claim C1: the with-citations pipeline performs no
validation of citation ids — with a structured-output oracle that
returns a citation whose `id` matches no retrieved document, the
pipeline succeeds and returns that citation unchanged. -/
theorem c1_counterexample :
    make_rag_with_citations_chain exRetriever exAnswerLLM exCiteLLM "q" = .ok exOut ∧
    exCitation ∈ exOut.citations.citations ∧
    exCitation.id ∉ exOut.context.map (fun d => metaShow d.metadata "id") :=
  ⟨rfl, by decide, by decide⟩

/-- Claim C1 (amended): the citations field of the with-citations
pipeline's output is exactly what the citation-extraction call returned
— the pipeline passes it through without checking ids against the
context, so citation validity holds only if the extraction service
complies. -/
theorem c1_citations_passthrough
    (retriever : String → Except Unit (List Document))
    (llm : String → Except Unit AIMsg)
    (sllm : String → Except Unit QuotedCitations)
    (question : String) (out : CitedOut)
    (h : make_rag_with_citations_chain retriever llm sllm question = .ok out) :
    cite_response_chain sllm out.context question out.answer = .ok out.citations := by
  unfold make_rag_with_citations_chain at h
  split at h
  · simp at h
  rename_i context hr
  split at h
  · simp at h
  rename_i answer ha
  split at h
  · simp at h
  rename_i citations hc
  injection h with h
  subst h
  exact hc

/-- Witness for the amended C1 at concrete oracles. -/
theorem c1_witness :
    make_rag_with_citations_chain exRetriever exAnswerLLM exCiteLLM "q" = .ok exOut ∧
    cite_response_chain exCiteLLM exOut.context "q" exOut.answer = .ok exOut.citations :=
  ⟨rfl, c1_citations_passthrough exRetriever exAnswerLLM exCiteLLM "q" exOut rfl⟩

/-- Counterexample to claim C3: with a structured-output oracle that
raises (schema violation) while retrieval and answer generation
succeed, the whole with-citations invocation fails — the already
generated answer is not returned with an empty citations list. -/
theorem c3_counterexample :
    rag_response_chain exAnswerLLM [exDoc] "q" = .ok "answer text" ∧
    make_rag_with_citations_chain exRetriever exAnswerLLM exCiteFail "q" = .error () :=
  ⟨rfl, rfl⟩

/-- Claim C3 (amended): a structured-output failure in the
citation-extraction step propagates — the whole turn fails with the
error, even though the answer-generation step had already succeeded;
only a successful extraction (possibly with zero citations) yields an
answer. -/
theorem c3_schema_violation_propagates
    (retriever : String → Except Unit (List Document))
    (llm : String → Except Unit AIMsg)
    (sllm : String → Except Unit QuotedCitations)
    (question : String) (context : List Document) (answer : String)
    (hr : retriever question = .ok context)
    (ha : rag_response_chain llm context question = .ok answer)
    (hc : cite_response_chain sllm context question answer = .error ()) :
    make_rag_with_citations_chain retriever llm sllm question = .error () := by
  unfold make_rag_with_citations_chain
  rw [hr]
  dsimp only
  rw [ha]
  dsimp only
  rw [hc]

/-- Witness for the amended C3 at concrete oracles. -/
theorem c3_witness :
    exRetriever "q" = .ok [exDoc] ∧
    rag_response_chain exAnswerLLM [exDoc] "q" = .ok "answer text" ∧
    cite_response_chain exCiteFail [exDoc] "q" "answer text" = .error () ∧
    make_rag_with_citations_chain exRetriever exAnswerLLM exCiteFail "q" = .error () :=
  ⟨rfl, rfl, rfl,
    c3_schema_violation_propagates exRetriever exAnswerLLM exCiteFail "q" [exDoc]
      "answer text" rfl rfl rfl⟩

/-- Claim C7: in the plain pipeline, the context string submitted to the
generation service is exactly the retrieved chunks' contents joined in
retrieval order with a double-newline separator, and the pipeline
returns the generated message content unchanged. -/
theorem c7_plain_pipeline_context
    (retriever : String → Except Unit (List Document))
    (llm : String → Except Unit AIMsg) (question answer : String)
    (h : make_basic_rag_chain retriever llm question = .ok answer) :
    ∃ docs, retriever question = .ok docs ∧
      llm (ragPrompt question (joinSep "\n\n" (docs.map (fun d => d.page_content)))) =
        .ok (AIMsg.mk answer) := by
  unfold make_basic_rag_chain at h
  split at h
  · simp at h
  rename_i docs hr
  split at h
  · simp at h
  rename_i msg hl
  injection h with h
  subst h
  exact ⟨docs, hr, hl⟩

/-- Witness for C7 at concrete oracles. -/
theorem c7_witness :
    make_basic_rag_chain exRetriever exAnswerLLM "q" = .ok "answer text" ∧
    (∃ docs, exRetriever "q" = .ok docs ∧
      exAnswerLLM (ragPrompt "q" (joinSep "\n\n" (docs.map (fun d => d.page_content)))) =
        .ok (AIMsg.mk "answer text")) :=
  ⟨rfl, c7_plain_pipeline_context exRetriever exAnswerLLM "q" "answer text" rfl⟩

/-! ## Claims about chunk enrichment (loader.py) -/

/-- Counterexample to claim C2: with a context generator that fails on
the (single) window, `create_contextual_chunks` does not emit a chunk
with an empty context — the exception propagates and the whole build
aborts with no chunk list at all. -/
theorem c2_counterexample :
    (doc_windows exLoadPdf 50 0 "docs/a.pdf").length = 1 ∧
    exCtxFail (chunkProcessPrompt (full_doc_text exLoadPdf "docs/a.pdf")
      exPage.page_content) = .error () ∧
    create_contextual_chunks exCtxFail exLoadPdf exIds "docs/a.pdf" 50 0 = .error () :=
  ⟨by decide, rfl, rfl⟩

/-- Claim C2 (amended): there is no retry and no empty-context fallback
— if the context-generation call fails for any window, the exception
propagates out of `create_contextual_chunks`, so the build aborts and no
chunk is produced for any window. -/
theorem c2_failure_aborts_build
    (llm : String → Except Unit String) (loadPdf : String → List Document)
    (idSupply : Nat → String) (file_path : String) (cs co : Nat)
    (hfail : ∃ w ∈ doc_windows loadPdf cs co file_path,
      llm (chunkProcessPrompt (full_doc_text loadPdf file_path) w.page_content) =
        .error ()) :
    create_contextual_chunks llm loadPdf idSupply file_path cs co = .error () :=
  chunksLoop_error llm (full_doc_text loadPdf file_path) file_path idSupply
    (doc_windows loadPdf cs co file_path) 0 hfail

/-- Witness for the amended C2 at concrete oracles. -/
theorem c2_witness :
    (∃ w ∈ doc_windows exLoadPdf 50 0 "docs/a.pdf",
      exCtxFail (chunkProcessPrompt (full_doc_text exLoadPdf "docs/a.pdf")
        w.page_content) = .error ()) ∧
    create_contextual_chunks exCtxFail exLoadPdf exIds "docs/a.pdf" 50 0 = .error () :=
  ⟨by decide, c2_failure_aborts_build exCtxFail exLoadPdf exIds "docs/a.pdf" 50 0 (by decide)⟩

/-- The id entry of an enriched chunk's metadata. -/
lemma buildChunk_lookup_id (idSupply : Nat → String) (file_path : String)
    (i : Nat) (w : Document) (context : String) :
    (buildChunk idSupply file_path i w context).metadata.lookup "id" =
      some (.str (idSupply i)) := rfl

/-- The page entry of an enriched chunk's metadata. -/
lemma buildChunk_lookup_page (idSupply : Nat → String) (file_path : String)
    (i : Nat) (w : Document) (context : String) :
    (buildChunk idSupply file_path i w context).metadata.lookup "page" =
      some (metaGetD w.metadata "page" (.nat 0)) := rfl

/-- The source entry of an enriched chunk's metadata. -/
lemma buildChunk_lookup_source (idSupply : Nat → String) (file_path : String)
    (i : Nat) (w : Document) (context : String) :
    (buildChunk idSupply file_path i w context).metadata.lookup "source" =
      some (metaGetD w.metadata "source" (.str file_path)) := rfl

/-- The title entry of an enriched chunk's metadata. -/
lemma buildChunk_lookup_title (idSupply : Nat → String) (file_path : String)
    (i : Nat) (w : Document) (context : String) :
    (buildChunk idSupply file_path i w context).metadata.lookup "title" =
      some (.str (fileName (metaGetD w.metadata "source" (.str file_path)).render)) := rfl

/-- Claim C5: every enriched chunk's content is the synthesized context
string, a blank-line separator, then the raw window text; its metadata
has exactly the keys id, page, source, title; and when the originating
window carries page and source metadata, the chunk's page and source are
taken from it, with title the file-name component of source. -/
theorem c5_enriched_chunk_shape
    (llm : String → Except Unit String) (loadPdf : String → List Document)
    (idSupply : Nat → String) (file_path : String) (cs co : Nat)
    (k : Nat) (w : Document)
    (hok : ∀ w' ∈ doc_windows loadPdf cs co file_path,
      (llm (chunkProcessPrompt (full_doc_text loadPdf file_path) w'.page_content)).isOk =
        true)
    (hw : (doc_windows loadPdf cs co file_path).get? k = some w) :
    ∃ l c ctx,
      create_contextual_chunks llm loadPdf idSupply file_path cs co = .ok l ∧
      l.get? k = some c ∧
      llm (chunkProcessPrompt (full_doc_text loadPdf file_path) w.page_content) = .ok ctx ∧
      c.page_content = pyStrip ctx ++ "\n\n" ++ w.page_content ∧
      c.metadata.map Prod.fst = ["id", "page", "source", "title"] ∧
      (∀ p, w.metadata.lookup "page" = some p → c.metadata.lookup "page" = some p) ∧
      (∀ src, w.metadata.lookup "source" = some (.str src) →
        c.metadata.lookup "source" = some (.str src) ∧
        c.metadata.lookup "title" = some (.str (fileName src))) := by
  obtain ⟨l, hl, hlen, hcorr⟩ :=
    chunksLoop_spec llm (full_doc_text loadPdf file_path) file_path idSupply
      (doc_windows loadPdf cs co file_path) 0 hok
  obtain ⟨ctx, h1, h2⟩ := hcorr k w hw
  refine ⟨l, buildChunk idSupply file_path (0 + k) w (pyStrip ctx), ctx, hl, h2, h1,
    rfl, rfl, ?_, ?_⟩
  · intro p hp
    rw [buildChunk_lookup_page]
    simp [metaGetD, hp]
  · intro src hs
    constructor
    · rw [buildChunk_lookup_source]
      simp [metaGetD, hs]
    · rw [buildChunk_lookup_title]
      simp [metaGetD, hs, MetaVal.render]

/-- Witness for C5 at concrete oracles. -/
theorem c5_witness :
    (doc_windows exLoadPdf 50 0 "docs/a.pdf").get? 0 = some exPage ∧
    (∃ l c ctx,
      create_contextual_chunks exCtxLLM exLoadPdf exIds "docs/a.pdf" 50 0 = .ok l ∧
      l.get? 0 = some c ∧
      exCtxLLM (chunkProcessPrompt (full_doc_text exLoadPdf "docs/a.pdf")
        exPage.page_content) = .ok ctx ∧
      c.page_content = pyStrip ctx ++ "\n\n" ++ exPage.page_content ∧
      c.metadata.map Prod.fst = ["id", "page", "source", "title"] ∧
      (∀ p, exPage.metadata.lookup "page" = some p →
        c.metadata.lookup "page" = some p) ∧
      (∀ src, exPage.metadata.lookup "source" = some (.str src) →
        c.metadata.lookup "source" = some (.str src) ∧
        c.metadata.lookup "title" = some (.str (fileName src)))) :=
  ⟨by decide,
    c5_enriched_chunk_shape exCtxLLM exLoadPdf exIds "docs/a.pdf" 50 0 0 exPage
      (by decide) (by decide)⟩

/-- Claim C10: `create_contextual_chunks` produces exactly one enriched
chunk per splitter window, in splitter order, and assigns each a fresh
id distinct from every other chunk of the same build (given that the
fresh-id source never repeats within the build). -/
theorem c10_one_chunk_per_window
    (llm : String → Except Unit String) (loadPdf : String → List Document)
    (idSupply : Nat → String) (file_path : String) (cs co : Nat)
    (hok : ∀ w ∈ doc_windows loadPdf cs co file_path,
      (llm (chunkProcessPrompt (full_doc_text loadPdf file_path) w.page_content)).isOk =
        true)
    (hinj : ∀ i, i < (doc_windows loadPdf cs co file_path).length →
      ∀ j, j < (doc_windows loadPdf cs co file_path).length →
        idSupply i = idSupply j → i = j) :
    ∃ l, create_contextual_chunks llm loadPdf idSupply file_path cs co = .ok l ∧
      l.length = (doc_windows loadPdf cs co file_path).length ∧
      (∀ k w, (doc_windows loadPdf cs co file_path).get? k = some w →
        ∃ ctx,
          llm (chunkProcessPrompt (full_doc_text loadPdf file_path) w.page_content) =
            .ok ctx ∧
          l.get? k = some (buildChunk idSupply file_path k w (pyStrip ctx))) ∧
      (∀ j k cj ck, l.get? j = some cj → l.get? k = some ck → j ≠ k →
        cj.metadata.lookup "id" ≠ ck.metadata.lookup "id") := by
  obtain ⟨l, hl, hlen, hcorr⟩ :=
    chunksLoop_spec llm (full_doc_text loadPdf file_path) file_path idSupply
      (doc_windows loadPdf cs co file_path) 0 hok
  refine ⟨l, hl, hlen, ?_, ?_⟩
  · intro k w hw
    obtain ⟨ctx, h1, h2⟩ := hcorr k w hw
    rw [Nat.zero_add] at h2
    exact ⟨ctx, h1, h2⟩
  · intro j k cj ck hj hk hne
    have hjl : j < l.length := by
      rcases List.get?_eq_some.mp hj with ⟨hlt, -⟩
      exact hlt
    have hkl : k < l.length := by
      rcases List.get?_eq_some.mp hk with ⟨hlt, -⟩
      exact hlt
    have hjw : (doc_windows loadPdf cs co file_path).get? j =
        some ((doc_windows loadPdf cs co file_path).get ⟨j, by rw [← hlen]; exact hjl⟩) :=
      List.get?_eq_get (by rw [← hlen]; exact hjl)
    have hkw : (doc_windows loadPdf cs co file_path).get? k =
        some ((doc_windows loadPdf cs co file_path).get ⟨k, by rw [← hlen]; exact hkl⟩) :=
      List.get?_eq_get (by rw [← hlen]; exact hkl)
    obtain ⟨ctxj, -, h2j⟩ := hcorr j _ hjw
    obtain ⟨ctxk, -, h2k⟩ := hcorr k _ hkw
    rw [hj] at h2j
    rw [hk] at h2k
    have hcj := Option.some.inj h2j
    have hck := Option.some.inj h2k
    intro hid
    rw [hcj, hck, buildChunk_lookup_id, buildChunk_lookup_id] at hid
    simp only [Option.some.injEq, MetaVal.str.injEq, Nat.zero_add] at hid
    exact hne (hinj j (by rw [hlen] at hjl; exact hjl) k (by rw [hlen] at hkl; exact hkl) hid)

/-- Witness for C10 at concrete oracles. -/
theorem c10_witness :
    (∀ w ∈ doc_windows exLoadPdf 50 0 "docs/a.pdf",
      (exCtxLLM (chunkProcessPrompt (full_doc_text exLoadPdf "docs/a.pdf")
        w.page_content)).isOk = true) ∧
    (∃ l, create_contextual_chunks exCtxLLM exLoadPdf exIds "docs/a.pdf" 50 0 = .ok l ∧
      l.length = (doc_windows exLoadPdf 50 0 "docs/a.pdf").length) := by
  refine ⟨by decide, ?_⟩
  obtain ⟨l, h1, h2, -, -⟩ :=
    c10_one_chunk_per_window exCtxLLM exLoadPdf exIds "docs/a.pdf" 50 0
      (by decide) (by decide)
  exact ⟨l, h1, h2⟩

/-! ## Claims about the vector store and retriever -/

/-- Counterexample to claim C8: on a disk state whose persist directory
exists (and is treated as available by the app's guard) but holds no
valid collection, `load_vectorstore` does not fail — it silently
creates and returns a new empty collection. -/
theorem c8_counterexample :
    exEnv.collections.lookup ("./my_context_db", "my_context_db") = none ∧
    vectorstore_available exEnv "./my_context_db" = true ∧
    (load_vectorstore exEnv "./my_context_db").1 =
      Chroma.mk "./my_context_db" "my_context_db" [] ∧
    (load_vectorstore exEnv "./my_context_db").2.collections.lookup
      ("./my_context_db", "my_context_db") = some [] :=
  ⟨rfl, rfl, rfl, rfl⟩

/-- Claim C8 (amended): `load_vectorstore` never fails and never reports
a missing collection — with the backend's get-or-create semantics it
returns the stored collection when present and otherwise silently
creates a new empty one; the app distinguishes "no index" only by
checking beforehand that the persist directory exists and is
non-empty. -/
theorem c8_load_get_or_create (env : DiskState) (dir : String) :
    (load_vectorstore env dir).1.docs =
      (env.collections.lookup (dir, "my_context_db")).getD [] ∧
    (load_vectorstore env dir).2.collections.lookup (dir, "my_context_db") =
      some ((env.collections.lookup (dir, "my_context_db")).getD []) := by
  unfold load_vectorstore chromaInit
  cases h : env.collections.lookup (dir, "my_context_db") with
  | none => simp [h, List.lookup]
  | some docs => simp [h]

/-- Counterexample to claim C9: constructing the retriever with `k = 0`
(which is `< 1`) is not rejected — the call proceeds and returns a
similarity retriever carrying `k = 0`. -/
theorem c9_counterexample :
    (0 : Int) < 1 ∧
    get_similarity_retriever exStore 0 =
      VectorStoreRetriever.mk exStore "similarity" 0 :=
  ⟨by decide, rfl⟩

/-- Claim C9 (amended): `get_similarity_retriever` performs no
validation of `k` — for every `k`, including `k < 1`, it returns the
pure similarity-search facade over the given store with exactly that
`k`; `k ≥ 1` is ensured only by the app's slider widget. -/
theorem c9_facade_no_validation (vs : Chroma) (k : Int) :
    get_similarity_retriever vs k = VectorStoreRetriever.mk vs "similarity" k := rfl

/-! ## Splitter length-bound lemmas (claim C6) -/

/-- Dropping a prefix cannot lengthen a list. -/
lemma dropWhile_len_le (p : Char → Bool) (l : List Char) :
    (l.dropWhile p).length ≤ l.length := by
  induction l with
  | nil => simp
  | cons c rest ih =>
    rw [List.dropWhile_cons]
    by_cases h : p c = true
    · simp only [h, if_true, List.length_cons]
      omega
    · simp [h]

/-- Stripping whitespace cannot lengthen a string. -/
lemma pyStrip_length_le (s : String) : (pyStrip s).length ≤ s.length := by
  show (((s.data.dropWhile isPySpace).reverse.dropWhile isPySpace).reverse).length ≤
    s.data.length
  rw [List.length_reverse]
  calc ((s.data.dropWhile isPySpace).reverse.dropWhile isPySpace).length
      ≤ (s.data.dropWhile isPySpace).reverse.length :=
        dropWhile_len_le isPySpace (s.data.dropWhile isPySpace).reverse
    _ = (s.data.dropWhile isPySpace).length := List.length_reverse _
    _ ≤ s.data.length := dropWhile_len_le isPySpace s.data

/-- Joining with the empty separator sums the lengths. -/
lemma joinSep_empty_length : ∀ l : List String, (joinSep "" l).length = sumLen l
  | [] => rfl
  | [s] => by simp [joinSep, sumLen]
  | s :: a :: rest => by
    have hstep : joinSep "" (s :: a :: rest) = s ++ "" ++ joinSep "" (a :: rest) := rfl
    rw [hstep, String.length_append, String.length_append,
      joinSep_empty_length (a :: rest)]
    simp [sumLen]

/-- A doc emitted by `_join_docs` with the empty separator is no longer
than the summed length of the joined pieces. -/
lemma joinDocs_length_le (cur : List String) (doc : String)
    (h : joinDocs cur "" = some doc) : doc.length ≤ sumLen cur := by
  unfold joinDocs at h
  by_cases hc : pyStrip (joinSep "" cur) = ""
  · rw [if_pos hc] at h
    simp at h
  · rw [if_neg hc] at h
    simp only [Option.some.injEq] at h
    rw [← h]
    calc (pyStrip (joinSep "" cur)).length ≤ (joinSep "" cur).length :=
        pyStrip_length_le _
      _ = sumLen cur := joinSep_empty_length cur

/-- Value of `sumLen` over a snoc. -/
lemma sumLen_append (l : List String) (s : String) :
    sumLen (l ++ [s]) = sumLen l + s.length := by
  induction l with
  | nil => simp [sumLen]
  | cons a rest ih => simp [sumLen, ih]; omega

/-- The pop loop of `_merge_splits` (with the empty separator) keeps
`total` equal to the summed length of the retained pieces and exits with
either room for the next piece or an empty window. -/
lemma popLoop_spec (cs co dlen : Nat) :
    ∀ (cur : List String) (total : Nat), total = sumLen cur →
      (popLoop cs co dlen 0 cur total).2 = sumLen (popLoop cs co dlen 0 cur total).1 ∧
      ((popLoop cs co dlen 0 cur total).2 + dlen ≤ cs ∨
        (popLoop cs co dlen 0 cur total).2 = 0) := by
  intro cur
  induction cur with
  | nil =>
    intro total h
    simp [sumLen] at h
    subst h
    simp [popLoop, sumLen]
  | cons c rest ih =>
    intro total h
    rw [popLoop]
    simp only [ite_self, Nat.add_zero]
    by_cases hcond : total > co ∨ (total + dlen > cs ∧ total > 0)
    · rw [if_pos hcond]
      apply ih
      simp only [sumLen] at h
      omega
    · rw [if_neg hcond]
      exact ⟨h, by omega⟩

/-- One `_merge_splits` iteration with the empty separator preserves the
merge invariant when the incoming piece is strictly shorter than
`chunk_size`. -/
lemma mergeStep_inv (cs co : Nat) (d : String) (hd : d.length < cs)
    (st : List String × List String × Nat) (h : MergeInv cs st) :
    MergeInv cs (mergeStep cs co "" st d) := by
  obtain ⟨h1, h2, h3⟩ := h
  unfold mergeStep
  have hz : ("" : String).length = 0 := rfl
  simp only [hz, ite_self, Nat.add_zero]
  by_cases hover : st.2.2 + d.length > cs
  · rw [if_pos hover]
    by_cases hemp : st.2.1.isEmpty
    · rw [if_pos hemp]
      exact ⟨h1, by simp [sumLen], by dsimp only; omega⟩
    · rw [if_neg hemp]
      obtain ⟨hp1, hp2⟩ := popLoop_spec cs co d.length st.2.1 st.2.2 h2
      refine ⟨?_, ?_, ?_⟩
      · intro c hc
        cases hj : joinDocs st.2.1 "" with
        | none =>
          rw [hj] at hc
          exact h1 c hc
        | some doc =>
          rw [hj] at hc
          rcases List.mem_append.mp hc with hc | hc
          · exact h1 c hc
          · have hcd : c = doc := by simpa using hc
            subst hcd
            have hdl := joinDocs_length_le st.2.1 c hj
            omega
      · rw [sumLen_append, hp1]
      · dsimp only
        omega
  · rw [if_neg hover]
    refine ⟨h1, ?_, by dsimp only; omega⟩
    rw [sumLen_append, h2]

/-- The `_merge_splits` fold preserves the merge invariant. -/
lemma mergeFold_inv (cs co : Nat) :
    ∀ (splits : List String) (st : List String × List String × Nat),
      (∀ s ∈ splits, s.length < cs) → MergeInv cs st →
      MergeInv cs (splits.foldl (mergeStep cs co "") st) := by
  intro splits
  induction splits with
  | nil => intro st _ h; simpa using h
  | cons s rest ih =>
    intro st hs h
    rw [List.foldl_cons]
    exact ih _ (fun x hx => hs x (List.mem_cons_of_mem s hx))
      (mergeStep_inv cs co s (hs s (List.mem_cons_self s rest)) st h)

/-- Every chunk `_merge_splits` emits (empty separator) is within
`chunk_size`, provided every incoming piece is strictly shorter. -/
lemma mergeSplits_length_le (cs co : Nat) (splits : List String)
    (hs : ∀ s ∈ splits, s.length < cs) :
    ∀ c ∈ mergeSplits cs co "" splits, c.length ≤ cs := by
  obtain ⟨h1, h2, h3⟩ :=
    mergeFold_inv cs co splits ([], [], 0) hs ⟨by simp, rfl, Nat.zero_le cs⟩
  intro c hc
  unfold mergeSplits at hc
  cases hj : joinDocs ((splits.foldl (mergeStep cs co "") ([], [], 0)).2.1) "" with
  | none =>
    rw [hj] at hc
    exact h1 c hc
  | some doc =>
    rw [hj] at hc
    rcases List.mem_append.mp hc with hc | hc
    · exact h1 c hc
    · have hcd : c = doc := by simpa using hc
      subst hcd
      have hdl := joinDocs_length_le _ c hj
      omega

/-- With the empty separator every split is a single character. -/
lemma splitKeep_empty_len (text : String) :
    ∀ s ∈ splitKeep "" text, s.length = 1 := by
  intro s hs
  simp only [splitKeep, if_pos, List.mem_filter, List.mem_map] at hs
  obtain ⟨⟨c, hc, hcs⟩, -⟩ := hs
  rw [← hcs]
  rfl

/-- When the separator list contains `""`, the selection loop either
picks `""` (with no fallbacks) or leaves `""` among the fallbacks. -/
lemma chooseSep_empty_mem :
    ∀ (seps : List String) (text : String), "" ∈ seps →
      chooseSep seps text = ("", []) ∨ "" ∈ (chooseSep seps text).2 := by
  intro seps
  induction seps with
  | nil => intro text h; simp at h
  | cons s rest ih =>
    intro text hmem
    by_cases hse : s = ""
    · subst hse
      left
      simp [chooseSep]
    · have hrest : "" ∈ rest := by
        rcases List.mem_cons.mp hmem with h | h
        · exact absurd h.symm hse
        · exact h
      have hne : rest.isEmpty = false := by
        cases rest with
        | nil => simp at hrest
        | cons a b => rfl
      by_cases hocc : strOccurs s text = true
      · right
        simp [chooseSep, hse, hocc]
        exact hrest
      · have hres : chooseSep (s :: rest) text = chooseSep rest text := by
          rw [chooseSep]
          simp [hse, hocc, hne]
        rw [hres]
        exact ih text hrest

/-- One `_split_text` iteration preserves the gather invariant, given
that expanding an over-long split stays within `chunk_size`. -/
lemma gatherStep_inv (cs co : Nat) (expand : String → List String) (s : String)
    (hexp : cs ≤ s.length → ∀ c ∈ expand s, c.length ≤ cs)
    (st : List String × List String) (h : GatherInv cs st) :
    GatherInv cs (gatherStep cs co expand st s) := by
  obtain ⟨h1, h2⟩ := h
  unfold gatherStep
  by_cases hlt : s.length < cs
  · rw [if_pos hlt]
    refine ⟨h1, ?_⟩
    intro x hx
    rcases List.mem_append.mp hx with hx | hx
    · exact h2 x hx
    · have hxs : x = s := by simpa using hx
      subst hxs
      exact hlt
  · rw [if_neg hlt]
    refine ⟨?_, by simp⟩
    intro c hc
    rcases List.mem_append.mp hc with hc | hc
    · by_cases he : st.2.isEmpty
      · rw [if_pos he] at hc
        exact h1 c hc
      · rw [if_neg he] at hc
        rcases List.mem_append.mp hc with hc | hc
        · exact h1 c hc
        · exact mergeSplits_length_le cs co st.2 h2 c hc
    · exact hexp (Nat.le_of_not_lt hlt) c hc

/-- The `_split_text` fold preserves the gather invariant. -/
lemma gatherFold_inv (cs co : Nat) (expand : String → List String) :
    ∀ (splits : List String) (st : List String × List String),
      (∀ s ∈ splits, cs ≤ s.length → ∀ c ∈ expand s, c.length ≤ cs) →
      GatherInv cs st →
      GatherInv cs (splits.foldl (gatherStep cs co expand) st) := by
  intro splits
  induction splits with
  | nil => intro st _ h; simpa using h
  | cons s rest ih =>
    intro st hs h
    rw [List.foldl_cons]
    exact ih _ (fun x hx => hs x (List.mem_cons_of_mem s hx))
      (gatherStep_inv cs co expand s (hs s (List.mem_cons_self s rest)) st h)

/-- Flushing the leftover good splits keeps every chunk within
`chunk_size`. -/
lemma finishGather_le (cs co : Nat) (st : List String × List String)
    (h : GatherInv cs st) : ∀ c ∈ finishGather cs co st, c.length ≤ cs := by
  obtain ⟨h1, h2⟩ := h
  intro c hc
  unfold finishGather at hc
  by_cases he : st.2.isEmpty
  · rw [if_pos he] at hc
    exact h1 c hc
  · rw [if_neg he] at hc
    rcases List.mem_append.mp hc with hc | hc
    · exact h1 c hc
    · exact mergeSplits_length_le cs co st.2 h2 c hc

/-- Every chunk `_split_text` emits is within `chunk_size`, for any
separator list containing `""` and any `chunk_size ≥ 1`. -/
lemma splitTextAux_length_le (cs co : Nat) (hcs : 1 ≤ cs) :
    ∀ (fuel : Nat) (seps : List String) (text : String), "" ∈ seps →
      ∀ c ∈ splitTextAux cs co fuel seps text, c.length ≤ cs := by
  intro fuel
  induction fuel with
  | zero =>
    intro seps text _ c hc
    simp [splitTextAux] at hc
  | succ n ih =>
    intro seps text hsep c hc
    rw [splitTextAux] at hc
    refine finishGather_le cs co _ ?_ c hc
    refine gatherFold_inv cs co _ _ ([], []) ?_ ⟨by simp, by simp⟩
    intro s hs hlen c' hc'
    rcases chooseSep_empty_mem seps text hsep with hch | hch
    · rw [hch] at hs hc'
      simp only [List.isEmpty_nil, if_true, List.mem_singleton] at hc'
      have hs1 := splitKeep_empty_len text s hs
      rw [hc']
      omega
    · have hne : (chooseSep seps text).2.isEmpty = false := by
        cases hx : (chooseSep seps text).2 with
        | nil => rw [hx] at hch; simp at hch
        | cons a b => rfl
      rw [hne] at hc'
      simp only [Bool.false_eq_true, if_false] at hc'
      exact ih (chooseSep seps text).2 s hch c' hc'

/-- Claim C6 (amended): for every chunk size `W ≥ 1` and every overlap,
every window the configured splitter produces has length at most `W`.
(The exact-overlap part of the original claim fails; see the
counterexample.) -/
theorem c6_window_length_le (cs co : Nat) (text c : String)
    (hcs : 1 ≤ cs) (hc : c ∈ splitText cs co text) : c.length ≤ cs :=
  splitTextAux_length_le cs co hcs 4 ["\n\n", "\n", " ", ""] text (by simp) c hc

/-- Witness for the amended C6 at a concrete split. -/
theorem c6_witness :
    1 ≤ 6 ∧ "aaaa" ∈ splitText 6 3 "aaaa bbbb cccc" ∧ ("aaaa" : String).length ≤ 6 :=
  ⟨by decide, by decide,
    c6_window_length_le 6 3 "aaaa bbbb cccc" "aaaa" (by decide) (by decide)⟩

/-- Counterexample to claim C6: splitting `"aaaa bbbb cccc"` with
window size 6 and overlap 3 (`O < W`) yields three windows, and the
first two consecutive windows — neither of which is the last — share no
characters at all: their overlap is 0, not the required 3. -/
theorem c6_counterexample :
    3 < 6 ∧
    splitText 6 3 "aaaa bbbb cccc" = ["aaaa", "bbbb", "cccc"] ∧
    overlapLen "aaaa" "bbbb" = 0 ∧
    overlapLen "aaaa" "bbbb" ≠ 3 := by
  refine ⟨by decide, by decide, by decide, by decide⟩
